import Mathlib

/-!
Verification development for the Swiss-Ephemeris Flask service (`src/app.py`).

The service's algorithmic core is the `/aspect_hits` scanner: a fixed-step
membership scan over a Julian-day window which, for every (target, body)
pair and every sampled instant, tests whether the folded angular defect
between the body's longitude and the target's longitude is within the orb
of some aspect in the request's aspect list, and records one event per
matching instant.  Events carry an uppercased planet name, a formatted UTC
timestamp and a motion flag, and the final collection is sorted by the
timestamp string.

The embedding below follows `src/app.py` line by line.  Python floats are
modelled as rationals (ℚ); Python's `%` on floats (sign of the divisor),
`int` (truncation toward zero) and `round` (banker's rounding, ties to
even) are modelled explicitly as `pymod`, `pyint` and `pyround`.  The
external `swisseph` / `dateutil` collaborators (planet-id attribute lookup,
`calc_ut`, `julday`-based ISO conversion, `revjul`) are abstracted as an
`Eph` structure, exactly the provider interface the service consumes.
-/

namespace App

/-- Python `x % y` on floats: the result has the sign of the divisor,
`x % y = x - y * floor (x / y)`.  Used for all the `% 360` reductions. -/
def pymod (x y : ℚ) : ℚ := x - y * ⌊x / y⌋

/-- Python `int(x)` on a float: truncation toward zero. -/
def pyint (x : ℚ) : ℤ := if 0 ≤ x then ⌊x⌋ else -⌊-x⌋

/-- Python `round(x)` on a float: nearest integer, ties to even
(banker's rounding). -/
def pyround (x : ℚ) : ℤ :=
  let f := ⌊x⌋
  let r := x - f
  if r < 1/2 then f
  else if 1/2 < r then f + 1
  else if Even f then f else f + 1

/-- Zero-padding of a natural number to `w` digits, as Python's
`format(n, "0wd")` does for nonnegative `n`. -/
def padNat (w : ℕ) (n : ℕ) : String :=
  let s := toString n
  String.mk (List.replicate (w - s.length) '0') ++ s

/-- Python `f"{n:0wd}"`: zero-pad to total width `w`; a sign counts
toward the width and precedes the padding. -/
def pyfmt (w : ℕ) (n : ℤ) : String :=
  if n < 0 then "-" ++ padNat (w - 1) n.natAbs else padNat w n.toNat

/-- Python list indexing `l[i]`: nonnegative indices from the front,
negative indices wrap from the back, anything else raises (here: `none`). -/
def pyIndex {α : Type} (l : List α) (i : ℤ) : Option α :=
  if 0 ≤ i then l.get? i.toNat
  else if 0 ≤ (l.length : ℤ) + i then l.get? ((l.length : ℤ) + i).toNat
  else none

/-- The `SIGNS` table of `src/app.py` (12 zodiac sign names). -/
def SIGNS : List String :=
  ["ARIES", "TAURUS", "GEMINI", "CANCER", "LEO", "VIRGO",
   "LIBRA", "SCORPIO", "SAGITTARIUS", "CAPRICORNUS", "AQUARIUS", "PISCES"]

/-- The external ephemeris collaborator consumed by the service:
`attr name` is `getattr(swe, name, None)` restricted to planet ids,
`calc_ut jd pl` returns the pair `(pos[0], pos[3])` (ecliptic longitude,
longitude speed) of `swe.calc_ut`, `to_julian` is the service's
`_to_julian` (ISO parse + `swe.julday`), and `revjul` is `swe.revjul`
(year, month, day, fractional hours UT). -/
structure Eph where
  attr : String → Option ℕ
  calc_ut : ℚ → ℕ → ℚ × ℚ
  to_julian : String → ℚ
  revjul : ℚ → ℤ × ℤ × ℤ × ℚ

/-- Motion flag of `src/app.py` lines 63 and 154:
`"R" if speed < 0 else "D"`. -/
def motionFlag (spd : ℚ) : String := if spd < 0 then "R" else "D"

/-- `format_lon` of `src/app.py`: sign lookup by `int(lon // 30)` plus
degree/minute/second text.  `none` models Python's `IndexError` when the
sign index is out of range. -/
def format_lon (lon : ℚ) : Option String :=
  match pyIndex SIGNS ⌊lon / 30⌋ with
  | none => none
  | some sign =>
    let deg_in_sign := pymod lon 30
    let deg := pyint deg_in_sign
    let minutes := pyint ((deg_in_sign - deg) * 60)
    let seconds := pyint (((deg_in_sign - deg) * 60 - minutes) * 60)
    some (pyfmt 2 deg ++ "°" ++ pyfmt 2 minutes ++ "′" ++ pyfmt 2 seconds
          ++ "″ " ++ sign)

/-- The record returned by `_planet_data`. -/
structure PlanetData where
  planet : String
  longitude : ℚ
  sign : String
  position : String
  motion : String
deriving DecidableEq, Repr

/-- `_planet_data` of `src/app.py`: resolve the planet id, compute the
position at the instant, reduce the longitude mod 360 and build the
record.  An unknown planet raises `ValueError` (here `Except.error`); an
out-of-range sign index would raise `IndexError`. -/
def _planet_data (eph : Eph) (planet_name dt_iso : String) :
    Except String PlanetData :=
  match eph.attr planet_name.toUpper with
  | none => .error ("Planeta desconocido: " ++ planet_name)
  | some pl_id =>
    let jd := eph.to_julian dt_iso
    let pos := eph.calc_ut jd pl_id
    let lon := pymod pos.1 360
    match pyIndex SIGNS ⌊lon / 30⌋, format_lon lon with
    | some sign, some position =>
      .ok { planet := planet_name.toUpper, longitude := lon, sign := sign,
            position := position, motion := motionFlag pos.2 }
    | _, _ => .error "IndexError"

/-- A JSON value appearing in the request's `target` field (or as an
element of a `target` list): a number, a string, or anything else. -/
inductive TargetVal where
  | num (x : ℚ)
  | str (s : String)
  | other
deriving DecidableEq

/-- The resolved form of a target (lines 111–124): a fixed longitude
(number, or natal-chart hit) or a dynamic body id. -/
inductive TSpec where
  | fixed (lon : ℚ)
  | dyn (pl : ℕ)
deriving DecidableEq

/-- Target resolution of `src/app.py` lines 111–124: a number is a fixed
longitude mod 360; a string is first looked up (uppercased) in the natal
chart, else resolved as a body name; anything unresolvable is skipped
(`none`). -/
def resolveTarget (eph : Eph) (natal_chart : List (String × ℚ)) :
    TargetVal → Option TSpec
  | .num x => some (.fixed (pymod x 360))
  | .str s =>
    match natal_chart.lookup s.toUpper with
    | some lon => some (.fixed (pymod lon 360))
    | none =>
      match eph.attr s.toUpper with
      | some pl_id => some (.dyn pl_id)
      | none => none
  | .other => none

/-- The folded angular defect computed at line 145:
`min(abs(delta - asp), 360 - abs(delta - asp))`. -/
def foldedDefect (delta asp : ℚ) : ℚ :=
  min |delta - asp| (360 - |delta - asp|)

/-- The aspect loop of lines 144–156, reduced to its control flow: test
the aspects in list order; `true` as soon as one matches (the `break`),
`false` when none does. -/
def aspectMatch (delta orb : ℚ) : List ℚ → Bool
  | [] => false
  | asp :: rest =>
    if foldedDefect delta asp ≤ orb then true else aspectMatch delta orb rest

/-- An event record of the `/aspect_hits` response (lines 151–155). -/
structure Hit where
  planet : String
  utc : String
  motion : String
deriving DecidableEq, Repr

/-- Timestamp formatting of lines 147–150: `swe.revjul`, hour by `int`,
minute by `int(round(...))`, then
`f"{y:04d}-{m:02d}-{d:02d}T{hr:02d}:{mi:02d}Z"`. -/
def tsOf (eph : Eph) (jd : ℚ) : String :=
  match eph.revjul jd with
  | (y, m, d, ut) =>
    let hr := pyint ut
    let mi := pyround ((ut - hr) * 60)
    pyfmt 4 y ++ "-" ++ pyfmt 2 m ++ "-" ++ pyfmt 2 d ++ "T"
      ++ pyfmt 2 hr ++ ":" ++ pyfmt 2 mi ++ "Z"

/-- Line 134: `lon_body = pos_body[0] % 360`. -/
def bodyLon (eph : Eph) (pl_id : ℕ) (jd : ℚ) : ℚ :=
  pymod (eph.calc_ut jd pl_id).1 360

/-- Lines 136–140: the target longitude at an instant — the precomputed
fixed longitude, or the dynamic body's longitude re-evaluated mod 360. -/
def targetLon (eph : Eph) (tspec : TSpec) (jd : ℚ) : ℚ :=
  match tspec with
  | .fixed l => l
  | .dyn dyn_pl => pymod (eph.calc_ut jd dyn_pl).1 360

/-- Line 142: `delta = (lon_body - t_lon + 360) % 360`. -/
def deltaAt (eph : Eph) (pl_id : ℕ) (tspec : TSpec) (jd : ℚ) : ℚ :=
  pymod (bodyLon eph pl_id jd - targetLon eph tspec jd + 360) 360

/-- The body of the sampling loop at one instant (lines 133–156): body
longitude and speed from the provider, target longitude (fixed, or
re-evaluated for a dynamic target), folded-defect membership over the
aspect list, and at most one appended hit. -/
def hitsAtInstant (eph : Eph) (aspects : List ℚ) (orb : ℚ) (body : String)
    (pl_id : ℕ) (tspec : TSpec) (jd : ℚ) : List Hit :=
  if aspectMatch (deltaAt eph pl_id tspec jd) orb aspects then
    [{ planet := body.toUpper, utc := tsOf eph jd,
       motion := motionFlag (eph.calc_ut jd pl_id).2 }]
  else []

/-- The `while jd_curr <= jd_end` sampling loop of lines 131–157: run `f`
at each sample, stepping by `step`.  The source loop diverges when
`step ≤ 0` and the window is nonempty; the embedding is guarded to stay
total and agrees with the source whenever `step > 0` (or the window is
empty). -/
def scanLoop (stop step : ℚ) (f : ℚ → List Hit) (jd : ℚ) : List Hit :=
  if h : jd ≤ stop ∧ 0 < step then
    f jd ++ scanLoop stop step f (jd + step)
  else []
termination_by (⌊(stop - jd) / step⌋ + 1).toNat
decreasing_by
  have hle := h.1
  have hstep := h.2
  have hne : step ≠ 0 := ne_of_gt hstep
  have key : (stop - (jd + step)) / step = (stop - jd) / step - 1 := by
    field_simp
    ring
  have hfl : ⌊(stop - (jd + step)) / step⌋ = ⌊(stop - jd) / step⌋ - 1 := by
    rw [key]
    exact_mod_cast Int.floor_sub_int ((stop - jd) / step) 1
  have hnn : (0 : ℤ) ≤ ⌊(stop - jd) / step⌋ := by
    apply Int.floor_nonneg.mpr
    exact div_nonneg (by linarith) (le_of_lt hstep)
  omega

/-- Lines 126–129 plus the sampling loop for one (body, target-spec)
pair: an unknown body name is skipped. -/
def scanPair (eph : Eph) (aspects : List ℚ) (orb : ℚ) (tspec : TSpec)
    (jd_start jd_end step : ℚ) (body : String) : List Hit :=
  match eph.attr body.toUpper with
  | none => []
  | some pl_id =>
    scanLoop jd_end step (hitsAtInstant eph aspects orb body pl_id tspec) jd_start

/-- Lines 111–157 for one target value: resolve it (skipping
unresolvable ones) and run the body loop. -/
def scanTarget (eph : Eph) (natal_chart : List (String × ℚ))
    (bodies : List String) (aspects : List ℚ) (orb : ℚ)
    (jd_start jd_end step : ℚ) (t : TargetVal) : List Hit :=
  match resolveTarget eph natal_chart t with
  | none => []
  | some tspec =>
    bodies.flatMap (scanPair eph aspects orb tspec jd_start jd_end step)

/-- The full scan of lines 109–160 after validation: the target × body
cross product accumulates hits in loop order, then
`hits.sort(key=lambda h: h["utc"])` sorts them (stably) by the timestamp
string. -/
def runScan (eph : Eph) (targets : List TargetVal) (bodies : List String)
    (aspects : List ℚ) (orb : ℚ) (jd_start jd_end step : ℚ)
    (natal_chart : List (String × ℚ)) : List Hit :=
  let hits := targets.flatMap
    (scanTarget eph natal_chart bodies aspects orb jd_start jd_end step)
  hits.mergeSort (fun a b => decide (a.utc ≤ b.utc))

/-- The request's `target` field: absent (`data.get` returns `None`), a
scalar, or a list (line 102 normalizes a scalar to a one-element list). -/
inductive TargetField where
  | missing
  | scalar (t : TargetVal)
  | list (ts : List TargetVal)
deriving DecidableEq

/-- Line 102. -/
def normTargets : TargetField → List TargetVal
  | .missing => []
  | .scalar t => [t]
  | .list ts => ts

/-- The decoded JSON body of a `/aspect_hits` request (lines 89–95).
`bodies` defaults to `[]` when absent, so an absent list and an empty
list are the same value, exactly as `data.get("bodies", [])` makes them;
`aspects` is the normalized aspect list of line 103 (`[0]` by default). -/
structure ScanRequest where
  bodies : List String
  target : TargetField
  aspects : List ℚ
  orb : ℚ
  jd_start : Option String
  jd_end : Option String
  step_hours : ℚ
  natal_chart : List (String × ℚ)

/-- The `/aspect_hits` handler, lines 86–160: validation (non-empty
`bodies`, then presence of `target`, `jd_start`, `jd_end`), conversion of
the date strings to Julian days at midnight UT, `step = step_hours / 24`,
then the scan.  `Except.error` is the 400 response with the source's
message; `Except.ok` is the JSON list. -/
def aspect_hits (eph : Eph) (data : ScanRequest) : Except String (List Hit) :=
  if data.bodies = [] then
    .error "Debes especificar al menos un planeta en 'bodies'"
  else
    match data.target, data.jd_start, data.jd_end with
    | .missing, _, _ => .error "'target', 'jd_start' y 'jd_end' son obligatorios"
    | _, none, _ => .error "'target', 'jd_start' y 'jd_end' son obligatorios"
    | _, _, none => .error "'target', 'jd_start' y 'jd_end' son obligatorios"
    | tf, some js, some je =>
      let jd_start := eph.to_julian (js ++ "T00:00")
      let jd_end := eph.to_julian (je ++ "T00:00")
      let step := data.step_hours / 24
      .ok (runScan eph (normTargets tf) data.bodies data.aspects data.orb
            jd_start jd_end step data.natal_chart)

/-- A concrete synthetic provider used by witnesses: every name
resolves to planet id 0, every body sits at longitude 0 with speed 1,
every date string converts to Julian day 0, and `revjul` reports
2020-01-02 with fractional hour `10 + 149/150` (10h 59m 36s). -/
def ephC : Eph :=
  ⟨fun _ => some 0, fun _ _ => (0, 1), fun _ => 0,
   fun _ => (2020, 1, 2, 10 + 149/150)⟩

/-- The timestamp format as the specification claims it: minute
resolution with the seconds *truncated* (not rounded) away from the
fractional hour.  Stated from the spec's words, for comparison with the
source's `tsOf`. -/
def tsSpecTruncated (y m d : ℤ) (ut : ℚ) : String :=
  let hr := pyint ut
  let mi := pyint ((ut - hr) * 60)
  pyfmt 4 y ++ "-" ++ pyfmt 2 m ++ "-" ++ pyfmt 2 d ++ "T"
    ++ pyfmt 2 hr ++ ":" ++ pyfmt 2 mi ++ "Z"

/-! ### Helper lemmas -/

theorem pymod_nonneg (x : ℚ) {y : ℚ} (hy : 0 < y) : 0 ≤ pymod x y := by
  have h := Int.sub_floor_div_mul_nonneg x hy
  unfold pymod
  rw [mul_comm]
  exact h

theorem pymod_lt (x : ℚ) {y : ℚ} (hy : 0 < y) : pymod x y < y := by
  have h := Int.sub_floor_div_mul_lt x hy
  unfold pymod
  rw [mul_comm]
  exact h

theorem foldedDefect_le_180 (delta asp : ℚ) : foldedDefect delta asp ≤ 180 := by
  unfold foldedDefect
  rcases le_total |delta - asp| 180 with h | h
  · exact le_trans (min_le_left _ _) h
  · exact le_trans (min_le_right _ _) (by linarith)

theorem aspectMatch_iff_exists (delta orb : ℚ) (aspects : List ℚ) :
    aspectMatch delta orb aspects = true ↔
      ∃ asp ∈ aspects, foldedDefect delta asp ≤ orb := by
  induction aspects with
  | nil => simp [aspectMatch]
  | cons a rest ih =>
    simp only [aspectMatch]
    by_cases h : foldedDefect delta a ≤ orb
    · simp [h]
    · simp [h, ih]

theorem aspectMatch_mono {delta orb₁ orb₂ : ℚ} (hle : orb₁ ≤ orb₂)
    (aspects : List ℚ) (h : aspectMatch delta orb₁ aspects = true) :
    aspectMatch delta orb₂ aspects = true := by
  rw [aspectMatch_iff_exists] at h ⊢
  rcases h with ⟨asp, hmem, hasp⟩
  exact ⟨asp, hmem, le_trans hasp hle⟩

theorem aspectMatch_append_of_match {delta orb asp : ℚ}
    (h : foldedDefect delta asp ≤ orb) (pre rest : List ℚ) :
    aspectMatch delta orb (pre ++ asp :: rest) = true := by
  induction pre with
  | nil => simp [aspectMatch, h]
  | cons b pre ih =>
    simp only [List.cons_append, aspectMatch]
    by_cases hb : foldedDefect delta b ≤ orb
    · simp [hb]
    · simp [hb, ih]

theorem length_hitsAtInstant_le_one (eph : Eph) (aspects : List ℚ) (orb : ℚ)
    (body : String) (pl_id : ℕ) (tspec : TSpec) (jd : ℚ) :
    (hitsAtInstant eph aspects orb body pl_id tspec jd).length ≤ 1 := by
  unfold hitsAtInstant
  split <;> simp

theorem mem_hitsAtInstant {eph : Eph} {aspects : List ℚ} {orb : ℚ}
    {body : String} {pl_id : ℕ} {tspec : TSpec} {jd : ℚ} {x : Hit}
    (hx : x ∈ hitsAtInstant eph aspects orb body pl_id tspec jd) :
    x = { planet := body.toUpper, utc := tsOf eph jd,
          motion := motionFlag (eph.calc_ut jd pl_id).2 } := by
  unfold hitsAtInstant at hx
  split at hx
  · simpa using hx
  · cases hx

theorem hitsAtInstant_mono_orb {eph : Eph} {aspects : List ℚ} {orb₁ orb₂ : ℚ}
    (hle : orb₁ ≤ orb₂) {body : String} {pl_id : ℕ} {tspec : TSpec} {jd : ℚ}
    {x : Hit} (hx : x ∈ hitsAtInstant eph aspects orb₁ body pl_id tspec jd) :
    x ∈ hitsAtInstant eph aspects orb₂ body pl_id tspec jd := by
  unfold hitsAtInstant at hx ⊢
  split at hx
  · next h => rw [if_pos (aspectMatch_mono hle aspects h)]; exact hx
  · cases hx

theorem hitsAtInstant_ne_nil_iff (eph : Eph) (aspects : List ℚ) (orb : ℚ)
    (body : String) (pl_id : ℕ) (tspec : TSpec) (jd : ℚ) :
    hitsAtInstant eph aspects orb body pl_id tspec jd ≠ [] ↔
      aspectMatch (deltaAt eph pl_id tspec jd) orb aspects = true := by
  unfold hitsAtInstant
  split <;> simp_all

theorem mem_scanLoop {stop step : ℚ} {f : ℚ → List Hit} {x : Hit} :
    ∀ {jd}, x ∈ scanLoop stop step f jd → ∃ t, x ∈ f t := by
  intro jd hx
  induction jd using scanLoop.induct stop step f with
  | case1 jd h ih =>
    rw [scanLoop, dif_pos h] at hx
    rcases List.mem_append.mp hx with h1 | h2
    · exact ⟨jd, h1⟩
    · exact ih h2
  | case2 jd h =>
    rw [scanLoop, dif_neg h] at hx
    cases hx

theorem scanLoop_mono {stop step : ℚ} {f g : ℚ → List Hit}
    (hfg : ∀ t x, x ∈ f t → x ∈ g t) {x : Hit} :
    ∀ {jd}, x ∈ scanLoop stop step f jd → x ∈ scanLoop stop step g jd := by
  intro jd hx
  induction jd using scanLoop.induct stop step f with
  | case1 jd h ih =>
    rw [scanLoop, dif_pos h] at hx
    rw [scanLoop, dif_pos h]
    rcases List.mem_append.mp hx with h1 | h2
    · exact List.mem_append.mpr (Or.inl (hfg jd x h1))
    · exact List.mem_append.mpr (Or.inr (ih h2))
  | case2 jd h =>
    rw [scanLoop, dif_neg h] at hx
    cases hx

theorem scanLoop_of_not_le {stop step jd : ℚ} (h : ¬jd ≤ stop)
    (f : ℚ → List Hit) : scanLoop stop step f jd = [] := by
  rw [scanLoop, dif_neg (fun hc => h hc.1)]

theorem mem_runScan_decomp {eph : Eph} {targets : List TargetVal}
    {bodies : List String} {aspects : List ℚ} {orb jd_start jd_end step : ℚ}
    {natal_chart : List (String × ℚ)} {x : Hit}
    (hx : x ∈ runScan eph targets bodies aspects orb jd_start jd_end step
      natal_chart) :
    ∃ body pl_id jd, body ∈ bodies ∧ eph.attr body.toUpper = some pl_id ∧
      x = { planet := body.toUpper, utc := tsOf eph jd,
            motion := motionFlag (eph.calc_ut jd pl_id).2 } := by
  unfold runScan at hx
  rw [List.mem_mergeSort] at hx
  rcases List.mem_flatMap.mp hx with ⟨t, _, hxt⟩
  unfold scanTarget at hxt
  split at hxt
  · cases hxt
  · rcases List.mem_flatMap.mp hxt with ⟨body, hbody, hxb⟩
    unfold scanPair at hxb
    split at hxb
    · cases hxb
    · next pl_id hattr =>
      rcases mem_scanLoop hxb with ⟨jd, hjd⟩
      exact ⟨body, pl_id, jd, hbody, hattr, mem_hitsAtInstant hjd⟩

theorem runScan_eq_nil_of_lt {eph : Eph} {targets : List TargetVal}
    {bodies : List String} {aspects : List ℚ} {orb jd_start jd_end step : ℚ}
    {natal_chart : List (String × ℚ)} (h : jd_end < jd_start) :
    runScan eph targets bodies aspects orb jd_start jd_end step natal_chart
      = [] := by
  unfold runScan
  have hts : targets.flatMap
      (scanTarget eph natal_chart bodies aspects orb jd_start jd_end step)
      = [] := by
    rw [List.flatMap_eq_nil_iff]
    intro t _
    unfold scanTarget
    split
    · rfl
    · rw [List.flatMap_eq_nil_iff]
      intro b _
      unfold scanPair
      split
      · rfl
      · exact scanLoop_of_not_le (not_le_of_lt h) _
  rw [hts, List.mergeSort_nil]

/-! ### Claims -/

/-- C1: at every sampled instant the membership test of the aspect
scanner records an event exactly when some aspect of the list has folded
defect `min (|delta - asp|) (360 - |delta - asp|)` within the orb, where
`delta = (lon - t_lon + 360) mod 360`; and the folded defect never
exceeds 180 degrees for any inputs. -/
theorem C1_folded_defect_membership (eph : Eph) (aspects : List ℚ) (orb : ℚ)
    (body : String) (pl_id : ℕ) (tspec : TSpec) (jd : ℚ) :
    (hitsAtInstant eph aspects orb body pl_id tspec jd ≠ [] ↔
      ∃ asp ∈ aspects,
        min |pymod (bodyLon eph pl_id jd - targetLon eph tspec jd + 360) 360 - asp|
          (360 - |pymod (bodyLon eph pl_id jd - targetLon eph tspec jd + 360) 360 - asp|)
          ≤ orb) ∧
    (∀ delta asp : ℚ, min |delta - asp| (360 - |delta - asp|) ≤ 180) := by
  constructor
  · rw [hitsAtInstant_ne_nil_iff, aspectMatch_iff_exists]
    unfold deltaAt foldedDefect
    rfl
  · intro delta asp
    exact foldedDefect_le_180 delta asp

/-- C3: at any sampled instant at most one event is recorded, and the
aspect loop stops at the first aspect within the orb: once an aspect in
the list matches, the aspects listed after it are never examined (the
output does not depend on them). -/
theorem C3_first_match_breaks (eph : Eph) (orb : ℚ) (body : String)
    (pl_id : ℕ) (tspec : TSpec) (jd : ℚ) :
    (∀ aspects, (hitsAtInstant eph aspects orb body pl_id tspec jd).length ≤ 1) ∧
    (∀ pre asp rest rest', foldedDefect (deltaAt eph pl_id tspec jd) asp ≤ orb →
      hitsAtInstant eph (pre ++ asp :: rest) orb body pl_id tspec jd =
        hitsAtInstant eph (pre ++ asp :: rest') orb body pl_id tspec jd) := by
  constructor
  · intro aspects
    exact length_hitsAtInstant_le_one eph aspects orb body pl_id tspec jd
  · intro pre asp rest rest' hasp
    unfold hitsAtInstant
    rw [aspectMatch_append_of_match hasp, aspectMatch_append_of_match hasp]

/-- C3 witness: with aspect list `[0, 180]` and a configuration where
aspect `0` matches, at most one event is recorded and the tail of the
aspect list is irrelevant. -/
theorem C3_first_match_breaks_witness :
    (hitsAtInstant ⟨fun _ => some 0, fun _ _ => (0, 1), fun _ => 0,
        fun _ => (2020, 1, 1, 0)⟩ [0, 180] 1 "SUN" 0 (.fixed 0) 0).length ≤ 1 ∧
    hitsAtInstant ⟨fun _ => some 0, fun _ _ => (0, 1), fun _ => 0,
        fun _ => (2020, 1, 1, 0)⟩ ([] ++ 0 :: [180]) 1 "SUN" 0 (.fixed 0) 0 =
      hitsAtInstant ⟨fun _ => some 0, fun _ _ => (0, 1), fun _ => 0,
        fun _ => (2020, 1, 1, 0)⟩ ([] ++ 0 :: []) 1 "SUN" 0 (.fixed 0) 0 :=
  ⟨(C3_first_match_breaks _ 1 "SUN" 0 (.fixed 0) 0).1 [0, 180],
   (C3_first_match_breaks _ 1 "SUN" 0 (.fixed 0) 0).2 [] 0 [180] []
     (by norm_num [foldedDefect, deltaAt, bodyLon, targetLon, pymod])⟩

/-- C5: every successful `/aspect_hits` response is sorted in
non-decreasing order of the formatted UTC timestamp string. -/
theorem C5_sorted_by_utc (eph : Eph) (data : ScanRequest) (hits : List Hit)
    (h : aspect_hits eph data = .ok hits) :
    hits.Pairwise (fun a b => a.utc ≤ b.utc) := by
  have key : ∀ (l : List Hit),
      (l.mergeSort (fun a b => decide (a.utc ≤ b.utc))).Pairwise
        (fun a b => a.utc ≤ b.utc) := by
    intro l
    have hs := @List.sorted_mergeSort Hit (fun a b => decide (a.utc ≤ b.utc))
      (by intro a b c hab hbc
          simp only [decide_eq_true_eq] at *
          exact le_trans hab hbc)
      (by intro a b
          simp only [Bool.or_eq_true, decide_eq_true_eq]
          exact le_total a.utc b.utc) l
    exact hs.imp (fun hab => by simpa using hab)
  unfold aspect_hits at h
  split at h
  · cases h
  · split at h
    · cases h
    · cases h
    · cases h
    · rw [Except.ok.injEq] at h
      subst h
      exact key _

/-- C5 witness: a concrete request whose successful response is sorted
by timestamp. -/
theorem C5_sorted_by_utc_witness :
    List.Pairwise (fun a b : Hit => a.utc ≤ b.utc) [] :=
  C5_sorted_by_utc ⟨fun _ => none, fun _ _ => (0, 1), fun _ => 0,
      fun _ => (2020, 1, 1, 0)⟩
    ⟨["MARS"], .scalar (.num 0), [0], 1, some "2020-01-01", some "2020-01-02",
      24, []⟩ []
    (by simp [aspect_hits, runScan, scanTarget, scanPair, resolveTarget,
          normTargets])

/-- C7: a request with an empty (or absent) `bodies` list, or a missing
`target`, `jd_start` or `jd_end`, is rejected with a request error — for
every ephemeris provider the same error is returned, so no sampling
occurs and no event list is produced. -/
theorem C7_request_validation (eph : Eph) (data : ScanRequest) :
    (data.bodies = [] →
      aspect_hits eph data =
        .error "Debes especificar al menos un planeta en 'bodies'") ∧
    (data.bodies ≠ [] →
      (data.target = .missing ∨ data.jd_start = none ∨ data.jd_end = none) →
      aspect_hits eph data =
        .error "'target', 'jd_start' y 'jd_end' son obligatorios") ∧
    (∀ eph' : Eph,
      (data.bodies = [] ∨ data.target = .missing ∨ data.jd_start = none ∨
        data.jd_end = none) →
      aspect_hits eph data = aspect_hits eph' data) := by
  refine ⟨?_, ?_, ?_⟩
  · intro hb
    unfold aspect_hits
    rw [if_pos hb]
  · intro hb hmiss
    unfold aspect_hits
    rw [if_neg hb]
    rcases hmiss with h | h | h <;> rw [h] <;>
      rcases data.target with _ | t | ts <;>
      rcases data.jd_start with _ | js <;>
      rcases data.jd_end with _ | je <;> simp_all
  · intro eph' hbad
    unfold aspect_hits
    by_cases hb : data.bodies = []
    · rw [if_pos hb, if_pos hb]
    · rw [if_neg hb, if_neg hb]
      have hbad' : data.target = .missing ∨ data.jd_start = none ∨
          data.jd_end = none := by
        tauto
      rcases htf : data.target with _ | t | ts <;>
        rcases hjs : data.jd_start with _ | js <;>
        rcases hje : data.jd_end with _ | je <;>
        simp_all

/-- C7 witness: an empty `bodies` list and a missing `target` are each
rejected with the source's request-error message. -/
theorem C7_request_validation_witness :
    aspect_hits ⟨fun _ => none, fun _ _ => (0, 1), fun _ => 0,
        fun _ => (2020, 1, 1, 0)⟩
      ⟨[], .scalar (.num 0), [0], 1, some "2020-01-01", some "2020-01-02",
        24, []⟩ =
      .error "Debes especificar al menos un planeta en 'bodies'" ∧
    aspect_hits ⟨fun _ => none, fun _ _ => (0, 1), fun _ => 0,
        fun _ => (2020, 1, 1, 0)⟩
      ⟨["SUN"], .missing, [0], 1, some "2020-01-01", some "2020-01-02",
        24, []⟩ =
      .error "'target', 'jd_start' y 'jd_end' son obligatorios" :=
  ⟨(C7_request_validation _ _).1 rfl,
   (C7_request_validation _ _).2.1 (by simp) (Or.inl rfl)⟩

/-- C9: every longitude the program looks up is first reduced modulo 360
into `[0, 360)`, the resulting sign index `⌊lon / 30⌋` lies in `0..11`,
the 12-entry `SIGNS` lookups never go out of range, and `_planet_data`
can never fail with an index error. -/
theorem C9_sign_index_in_bounds :
    (∀ x : ℚ, 0 ≤ pymod x 360 ∧ pymod x 360 < 360 ∧
      0 ≤ ⌊pymod x 360 / 30⌋ ∧ ⌊pymod x 360 / 30⌋ < 12 ∧
      (pyIndex SIGNS ⌊pymod x 360 / 30⌋).isSome ∧
      (format_lon (pymod x 360)).isSome) ∧
    (∀ (eph : Eph) (name dt : String),
      _planet_data eph name dt ≠ .error "IndexError") := by
  have h360 : (0 : ℚ) < 360 := by norm_num
  have main : ∀ x : ℚ, 0 ≤ pymod x 360 ∧ pymod x 360 < 360 ∧
      0 ≤ ⌊pymod x 360 / 30⌋ ∧ ⌊pymod x 360 / 30⌋ < 12 ∧
      (pyIndex SIGNS ⌊pymod x 360 / 30⌋).isSome ∧
      (format_lon (pymod x 360)).isSome := by
    intro x
    have h0 := pymod_nonneg x h360
    have h1 := pymod_lt x h360
    have hdiv0 : 0 ≤ pymod x 360 / 30 := by positivity
    have hfl0 : 0 ≤ ⌊pymod x 360 / 30⌋ := Int.floor_nonneg.mpr hdiv0
    have hfl12 : ⌊pymod x 360 / 30⌋ < 12 := by
      have : pymod x 360 / 30 < ((12 : ℤ) : ℚ) := by
        push_cast
        linarith
      exact Int.floor_lt.mpr this
    have hlen : ⌊pymod x 360 / 30⌋.toNat < SIGNS.length := by
      simp only [SIGNS, List.length]
      omega
    have hidx : (pyIndex SIGNS ⌊pymod x 360 / 30⌋).isSome := by
      unfold pyIndex
      rw [if_pos hfl0]
      simp [List.get?_eq_getElem?, hlen]
    refine ⟨h0, h1, hfl0, hfl12, hidx, ?_⟩
    unfold format_lon
    rcases hs : pyIndex SIGNS ⌊pymod x 360 / 30⌋ with _ | s
    · rw [hs] at hidx
      cases hidx
    · simp
  refine ⟨main, ?_⟩
  intro eph name dt
  unfold _planet_data
  rcases eph.attr name.toUpper with _ | pl_id
  · intro hcontra
    rw [Except.error.injEq] at hcontra
    have hlen := congrArg String.length hcontra
    rw [String.length_append] at hlen
    have h21 : "Planeta desconocido: ".length = 21 := rfl
    have h10 : "IndexError".length = 10 := rfl
    omega
  · have h := main (eph.calc_ut (eph.to_julian dt) pl_id).1
    rcases hs : pyIndex SIGNS ⌊pymod (eph.calc_ut (eph.to_julian dt) pl_id).1 360 / 30⌋
        with _ | s
    · rw [hs] at h
      simp at h
    · rcases hf : format_lon (pymod (eph.calc_ut (eph.to_julian dt) pl_id).1 360)
          with _ | pos
      · rw [hf] at h
        simp at h
      · simp only [hs, hf]
        intro hcontra
        cases hcontra

theorem tsOf_ephC : tsOf ephC 0 = "2020-01-02T10:60Z" := by
  have h1 : pyint (10 + 149/150) = 10 := by norm_num [pyint]
  have h2 : pyround (((10 : ℚ) + 149/150 - ((10 : ℤ) : ℚ)) * 60) = 60 := by
    norm_num [pyround, Int.even_iff]
  simp only [tsOf, ephC, h1, h2]
  decide

theorem deltaAt_ephC : deltaAt ephC 0 (.fixed (pymod 0 360)) 0 = 0 := by
  norm_num [deltaAt, bodyLon, targetLon, ephC, pymod]

theorem runScanC {orb : ℚ} (h : 0 ≤ orb) :
    runScan ephC [.num 0] ["SUN"] [0] orb 0 0 (1/24) [] =
      [{ planet := "SUN".toUpper, utc := "2020-01-02T10:60Z", motion := "D" }] := by
  have hmatch : aspectMatch (deltaAt ephC 0 (.fixed (pymod 0 360)) 0) orb [0]
      = true := by
    rw [deltaAt_ephC]
    have : foldedDefect 0 0 = 0 := by norm_num [foldedDefect]
    simp [aspectMatch, this, h]
  have hhit : hitsAtInstant ephC [0] orb "SUN" 0 (.fixed (pymod 0 360)) 0 =
      [{ planet := "SUN".toUpper, utc := "2020-01-02T10:60Z",
         motion := "D" }] := by
    rw [hitsAtInstant, if_pos hmatch, tsOf_ephC]
    have : motionFlag (ephC.calc_ut 0 0).2 = "D" := by
      norm_num [motionFlag, ephC]
    rw [this]
  have hloop : scanLoop 0 (1/24)
      (hitsAtInstant ephC [0] orb "SUN" 0 (.fixed (pymod 0 360))) 0 =
      [{ planet := "SUN".toUpper, utc := "2020-01-02T10:60Z",
         motion := "D" }] := by
    rw [scanLoop, dif_pos (by norm_num : (0:ℚ) ≤ 0 ∧ (0:ℚ) < 1/24)]
    rw [scanLoop, dif_neg (by norm_num : ¬((0:ℚ) + 1/24 ≤ 0 ∧ (0:ℚ) < 1/24))]
    rw [hhit]
    rfl
  have hattr : ephC.attr "SUN".toUpper = some 0 := rfl
  simp only [runScan, List.flatMap_cons, List.flatMap_nil, scanTarget,
    resolveTarget, scanPair, hattr, hloop]
  simp only [List.append_nil, List.mergeSort_singleton]

/-- C4: with everything else fixed, widening the orb never removes an
event: every record in the scan's output with orb `orb₁ ≤ orb₂` also
appears in the output with orb `orb₂`. -/
theorem C4_orb_monotone (eph : Eph) (targets : List TargetVal)
    (bodies : List String) (aspects : List ℚ)
    (orb₁ orb₂ jd_start jd_end step : ℚ)
    (natal_chart : List (String × ℚ)) (x : Hit) (hle : orb₁ ≤ orb₂)
    (hx : x ∈ runScan eph targets bodies aspects orb₁ jd_start jd_end step
      natal_chart) :
    x ∈ runScan eph targets bodies aspects orb₂ jd_start jd_end step
      natal_chart := by
  unfold runScan at hx ⊢
  rw [List.mem_mergeSort] at hx ⊢
  rcases List.mem_flatMap.mp hx with ⟨t, ht, hxt⟩
  refine List.mem_flatMap.mpr ⟨t, ht, ?_⟩
  unfold scanTarget at hxt ⊢
  split at hxt
  · cases hxt
  · rcases List.mem_flatMap.mp hxt with ⟨body, hbody, hxb⟩
    refine List.mem_flatMap.mpr ⟨body, hbody, ?_⟩
    unfold scanPair at hxb ⊢
    split at hxb
    · cases hxb
    · exact scanLoop_mono (fun t x hx => hitsAtInstant_mono_orb hle hx) hxb

/-- C4 witness: the event found with orb 1 is still in the output with
orb 2. -/
theorem C4_orb_monotone_witness :
    (1 : ℚ) ≤ 2 ∧
    { planet := "SUN".toUpper, utc := "2020-01-02T10:60Z",
      motion := "D" : Hit } ∈
      runScan ephC [.num 0] ["SUN"] [0] 2 0 0 (1/24) [] :=
  ⟨by norm_num,
   C4_orb_monotone ephC [.num 0] ["SUN"] [0] 1 2 0 0 (1/24) [] _
     (by norm_num)
     (by rw [runScanC (by norm_num : (0:ℚ) ≤ 1)]; exact List.mem_singleton_self _)⟩

/-- C8: the motion flag is a pure function of the provider's speed:
`"R"` exactly when `speed < 0`, `"D"` otherwise (speed 0 gives `"D"`);
every scan event's motion field is this function of the provider's speed
for the event's own body (the resolved planet id of the name echoed,
uppercased, in the event's planet field) at the event's own sampled
instant (the instant whose formatted timestamp is the event's utc
field); and `_planet_data`'s motion field is the same function of the
speed at the requested instant. -/
theorem C8_motion_flag :
    (∀ s : ℚ, (motionFlag s = "R" ↔ s < 0) ∧ (motionFlag s = "D" ↔ 0 ≤ s)) ∧
    (∀ (eph : Eph) (targets : List TargetVal) (bodies : List String)
      (aspects : List ℚ) (orb jd_start jd_end step : ℚ)
      (natal_chart : List (String × ℚ)) (x : Hit),
      x ∈ runScan eph targets bodies aspects orb jd_start jd_end step
        natal_chart →
      ∃ (body : String) (pl_id : ℕ) (jd : ℚ),
        body ∈ bodies ∧ eph.attr body.toUpper = some pl_id ∧
        x.planet = body.toUpper ∧ x.utc = tsOf eph jd ∧
        x.motion = motionFlag (eph.calc_ut jd pl_id).2) ∧
    (∀ (eph : Eph) (name dt : String) (pd : PlanetData),
      _planet_data eph name dt = .ok pd →
      ∃ pl_id, eph.attr name.toUpper = some pl_id ∧
        pd.motion = motionFlag (eph.calc_ut (eph.to_julian dt) pl_id).2) := by
  refine ⟨?_, ?_, ?_⟩
  · intro s
    constructor
    · unfold motionFlag
      by_cases hs : s < 0
      · simp [hs]
      · rw [if_neg hs]
        constructor
        · intro h
          exact absurd h (by decide)
        · intro h
          exact absurd h hs
    · unfold motionFlag
      by_cases hs : s < 0
      · rw [if_pos hs]
        constructor
        · intro h
          exact absurd h (by decide)
        · intro h
          exact absurd hs (not_lt_of_le h)
      · simp [hs, le_of_not_lt hs]
  · intro eph targets bodies aspects orb jd_start jd_end step natal_chart x hx
    rcases mem_runScan_decomp hx with ⟨body, pl_id, jd, hbody, hattr, hxeq⟩
    exact ⟨body, pl_id, jd, hbody, hattr, by rw [hxeq], by rw [hxeq],
      by rw [hxeq]⟩
  · intro eph name dt pd hpd
    unfold _planet_data at hpd
    split at hpd
    · cases hpd
    · next pl_id hattr =>
      rcases hs : pyIndex SIGNS
          ⌊pymod (eph.calc_ut (eph.to_julian dt) pl_id).1 360 / 30⌋ with _ | sign
      · simp only [hs] at hpd
        exact Except.noConfusion hpd
      · rcases hf : format_lon
            (pymod (eph.calc_ut (eph.to_julian dt) pl_id).1 360) with _ | pos
        · simp only [hs, hf] at hpd
          exact Except.noConfusion hpd
        · simp only [hs, hf] at hpd
          rw [Except.ok.injEq] at hpd
          subst hpd
          exact ⟨pl_id, hattr, rfl⟩

theorem planet_data_ephC :
    _planet_data ephC "SUN" "2020-01-01" =
      .ok { planet := "SUN".toUpper, longitude := 0, sign := "ARIES",
            position := "00°00′00″ ARIES", motion := "D" } := by
  have hattr : ephC.attr "SUN".toUpper = some 0 := rfl
  have hlon : pymod ((ephC.calc_ut (ephC.to_julian "2020-01-01") 0).1) 360
      = 0 := by
    norm_num [ephC, pymod]
  have hfl : ⌊(0 : ℚ) / 30⌋ = 0 := by norm_num
  have hidx : pyIndex SIGNS 0 = some "ARIES" := by decide
  have hmod30 : pymod (0 : ℚ) 30 = 0 := by norm_num [pymod]
  have hint : pyint 0 = 0 := by norm_num [pyint]
  have hformat : format_lon 0 = some "00°00′00″ ARIES" := by
    simp only [format_lon, hfl, hidx, hmod30, hint]
    norm_num [hint]
    decide
  have hmot : motionFlag ((ephC.calc_ut (ephC.to_julian "2020-01-01") 0).2)
      = "D" := by
    norm_num [ephC, motionFlag]
  simp only [_planet_data, hattr, hlon, hfl, hidx, hformat, hmot]

/-- C8 witness: a negative speed yields `"R"`, zero speed yields `"D"`,
the concrete scan event's motion is the flag of the provider's speed for
that event's own body at that event's own timestamped instant, and so is
the concrete `_planet_data` record's. -/
theorem C8_motion_flag_witness :
    motionFlag (-1) = "R" ∧
    motionFlag 0 = "D" ∧
    (∃ (body : String) (pl_id : ℕ) (jd : ℚ),
      body ∈ ["SUN"] ∧ ephC.attr body.toUpper = some pl_id ∧
      (Hit.mk ("SUN".toUpper) "2020-01-02T10:60Z" "D").planet = body.toUpper ∧
      (Hit.mk ("SUN".toUpper) "2020-01-02T10:60Z" "D").utc = tsOf ephC jd ∧
      (Hit.mk ("SUN".toUpper) "2020-01-02T10:60Z" "D").motion =
        motionFlag (ephC.calc_ut jd pl_id).2) ∧
    (∃ pl_id, ephC.attr "SUN".toUpper = some pl_id ∧
      (PlanetData.mk ("SUN".toUpper) 0 "ARIES" "00°00′00″ ARIES" "D").motion =
        motionFlag (ephC.calc_ut (ephC.to_julian "2020-01-01") pl_id).2) :=
  ⟨(C8_motion_flag.1 (-1)).1.mpr (by norm_num),
   (C8_motion_flag.1 0).2.mpr (by norm_num),
   C8_motion_flag.2.1 ephC [.num 0] ["SUN"] [0] 1 0 0 (1/24) [] _
     (by rw [runScanC (by norm_num : (0:ℚ) ≤ 1)]
         exact List.mem_singleton_self _),
   C8_motion_flag.2.2 ephC "SUN" "2020-01-01" _ planet_data_ephC⟩

/-- C2 counterexample: at fractional hour `10 + 149/150` (= 10h 59m 36s)
the scanner emits the timestamp `10:60` (59.6 minutes rounded up), while
the claimed truncation semantics would give `10:59` — so the emitted utc
field is not the seconds-truncated format the claim states. -/
theorem C2_counterexample :
    aspect_hits ephC
      ⟨["SUN"], .scalar (.num 0), [0], 1, some "2020-01-02",
        some "2020-01-02", 1, []⟩ =
      .ok [{ planet := "SUN".toUpper, utc := "2020-01-02T10:60Z",
             motion := "D" }] ∧
    tsSpecTruncated 2020 1 2 (10 + 149/150) = "2020-01-02T10:59Z" ∧
    ("2020-01-02T10:60Z" : String) ≠ "2020-01-02T10:59Z" := by
  refine ⟨?_, ?_, by decide⟩
  · have hrun := runScanC (by norm_num : (0:ℚ) ≤ 1)
    have hjul : ephC.to_julian ("2020-01-02" ++ "T00:00") = 0 := rfl
    simp only [aspect_hits, normTargets]
    rw [if_neg (by decide : ¬(["SUN"] = ([] : List String)))]
    simp only [hjul]
    rw [Except.ok.injEq]
    exact hrun
  · have h1 : pyint (10 + 149/150) = 10 := by norm_num [pyint]
    have h2 : pyint (((10 : ℚ) + 149/150 - ((10 : ℤ) : ℚ)) * 60) = 59 := by
      norm_num [pyint]
    simp only [tsSpecTruncated, h1, h2]
    decide

/-- C2 (amended): every event's utc field has the fixed format — 4-digit
zero-padded year, zero-padded month, day, hour and minute, literal `T`
and trailing `Z`, at minute resolution — where the hour is the integer
part of the fractional hour and the minute is obtained by *rounding*
`(ut - hr) * 60` to the nearest integer (ties to even), not by
truncating. -/
theorem C2_amended_format (eph : Eph) (targets : List TargetVal)
    (bodies : List String) (aspects : List ℚ) (orb jd_start jd_end step : ℚ)
    (natal_chart : List (String × ℚ)) (x : Hit)
    (hx : x ∈ runScan eph targets bodies aspects orb jd_start jd_end step
      natal_chart) :
    ∃ (jd : ℚ) (y m d : ℤ) (ut : ℚ), eph.revjul jd = (y, m, d, ut) ∧
      x.utc = pyfmt 4 y ++ "-" ++ pyfmt 2 m ++ "-" ++ pyfmt 2 d ++ "T"
        ++ pyfmt 2 (pyint ut) ++ ":"
        ++ pyfmt 2 (pyround ((ut - pyint ut) * 60)) ++ "Z" := by
  rcases mem_runScan_decomp hx with ⟨body, pl_id, jd, _, _, hxeq⟩
  rcases hr : eph.revjul jd with ⟨y, m, d, ut⟩
  refine ⟨jd, y, m, d, ut, hr, ?_⟩
  rw [hxeq]
  show tsOf eph jd = _
  unfold tsOf
  rw [hr]

/-- C2 witness: the amended format statement applied to the concrete
scan event. -/
theorem C2_amended_format_witness :
    ∃ (jd : ℚ) (y m d : ℤ) (ut : ℚ), ephC.revjul jd = (y, m, d, ut) ∧
      (Hit.mk ("SUN".toUpper) "2020-01-02T10:60Z" "D").utc =
        pyfmt 4 y ++ "-" ++ pyfmt 2 m ++ "-" ++ pyfmt 2 d ++ "T"
          ++ pyfmt 2 (pyint ut) ++ ":"
          ++ pyfmt 2 (pyround ((ut - pyint ut) * 60)) ++ "Z" :=
  C2_amended_format ephC [.num 0] ["SUN"] [0] 1 0 0 (1/24) [] _
    (by rw [runScanC (by norm_num : (0:ℚ) ≤ 1)]
        exact List.mem_singleton_self _)

/-- C6: an unresolvable target — a string that is neither a natal-chart
key nor a body name, or a value of any other type — or an unknown body
name in the `bodies` list is skipped: it contributes no events and no
error, and the scan's output over the remaining combinations is
unchanged. -/
theorem C6_skip_unresolvable (eph : Eph) (natal_chart : List (String × ℚ))
    (bodies : List String) (aspects : List ℚ) (orb jd_start jd_end step : ℚ) :
    (∀ (ts₁ ts₂ : List TargetVal) (s : String),
      natal_chart.lookup s.toUpper = none → eph.attr s.toUpper = none →
      runScan eph (ts₁ ++ .str s :: ts₂) bodies aspects orb jd_start jd_end
          step natal_chart =
        runScan eph (ts₁ ++ ts₂) bodies aspects orb jd_start jd_end step
          natal_chart) ∧
    (∀ ts₁ ts₂ : List TargetVal,
      runScan eph (ts₁ ++ .other :: ts₂) bodies aspects orb jd_start jd_end
          step natal_chart =
        runScan eph (ts₁ ++ ts₂) bodies aspects orb jd_start jd_end step
          natal_chart) ∧
    (∀ (targets : List TargetVal) (bs₁ bs₂ : List String) (b : String),
      eph.attr b.toUpper = none →
      runScan eph targets (bs₁ ++ b :: bs₂) aspects orb jd_start jd_end step
          natal_chart =
        runScan eph targets (bs₁ ++ bs₂) aspects orb jd_start jd_end step
          natal_chart) := by
  have hskip : ∀ t, resolveTarget eph natal_chart t = none →
      scanTarget eph natal_chart bodies aspects orb jd_start jd_end step t
        = [] := by
    intro t h
    unfold scanTarget
    rw [h]
  refine ⟨?_, ?_, ?_⟩
  · intro ts₁ ts₂ s hnat hattr
    have hres : resolveTarget eph natal_chart (.str s) = none := by
      simp only [resolveTarget, hnat, hattr]
    unfold runScan
    rw [List.flatMap_append, List.flatMap_cons, hskip _ hres, List.nil_append,
      ← List.flatMap_append]
  · intro ts₁ ts₂
    have hres : resolveTarget eph natal_chart .other = none := rfl
    unfold runScan
    rw [List.flatMap_append, List.flatMap_cons, hskip _ hres, List.nil_append,
      ← List.flatMap_append]
  · intro targets bs₁ bs₂ b hattr
    have hpair : ∀ tspec,
        scanPair eph aspects orb tspec jd_start jd_end step b = [] := by
      intro tspec
      unfold scanPair
      rw [hattr]
    have ht : ∀ t,
        scanTarget eph natal_chart (bs₁ ++ b :: bs₂) aspects orb jd_start
          jd_end step t =
        scanTarget eph natal_chart (bs₁ ++ bs₂) aspects orb jd_start jd_end
          step t := by
      intro t
      rcases hres : resolveTarget eph natal_chart t with _ | tspec
      · simp only [scanTarget, hres]
      · simp only [scanTarget, hres]
        rw [List.flatMap_append, List.flatMap_cons, hpair, List.nil_append,
          ← List.flatMap_append]
    unfold runScan
    rw [funext ht]

/-- C6 witness: with an empty natal chart and a provider that resolves
no names, an unresolvable string target, a target of another type and an
unknown body are each skipped without changing the rest of the scan. -/
theorem C6_skip_unresolvable_witness :
    runScan ⟨fun _ => none, fun _ _ => (0, 1), fun _ => 0,
        fun _ => (2020, 1, 1, 0)⟩ ([.num 0] ++ .str "XP" :: []) ["SUN"] [0] 1
        0 0 (1/24) [] =
      runScan ⟨fun _ => none, fun _ _ => (0, 1), fun _ => 0,
        fun _ => (2020, 1, 1, 0)⟩ ([.num 0] ++ []) ["SUN"] [0] 1 0 0 (1/24)
        [] ∧
    runScan ⟨fun _ => none, fun _ _ => (0, 1), fun _ => 0,
        fun _ => (2020, 1, 1, 0)⟩ ([.num 0] ++ .other :: []) ["SUN"] [0] 1
        0 0 (1/24) [] =
      runScan ⟨fun _ => none, fun _ _ => (0, 1), fun _ => 0,
        fun _ => (2020, 1, 1, 0)⟩ ([.num 0] ++ []) ["SUN"] [0] 1 0 0 (1/24)
        [] ∧
    runScan ⟨fun _ => none, fun _ _ => (0, 1), fun _ => 0,
        fun _ => (2020, 1, 1, 0)⟩ [.num 0] (["A"] ++ "SUN" :: []) [0] 1
        0 0 (1/24) [] =
      runScan ⟨fun _ => none, fun _ _ => (0, 1), fun _ => 0,
        fun _ => (2020, 1, 1, 0)⟩ [.num 0] (["A"] ++ []) [0] 1 0 0 (1/24)
        [] :=
  ⟨(C6_skip_unresolvable _ [] ["SUN"] [0] 1 0 0 (1/24)).1 [.num 0] [] "XP"
    rfl rfl,
   (C6_skip_unresolvable _ [] ["SUN"] [0] 1 0 0 (1/24)).2.1 [.num 0] [],
   (C6_skip_unresolvable _ [] ["SUN"] [0] 1 0 0 (1/24)).2.2 [.num 0] ["A"] []
    "SUN" rfl⟩

/-- C10: a well-formed request whose start instant converts to a Julian
day strictly greater than the end's makes the sampling loop run zero
iterations: the scanner succeeds with an empty event list instead of
rejecting the request. -/
theorem C10_empty_window (eph : Eph) (data : ScanRequest) (js je : String)
    (hb : data.bodies ≠ []) (ht : data.target ≠ .missing)
    (hjs : data.jd_start = some js) (hje : data.jd_end = some je)
    (hlt : eph.to_julian (je ++ "T00:00") < eph.to_julian (js ++ "T00:00")) :
    aspect_hits eph data = .ok [] := by
  unfold aspect_hits
  rw [if_neg hb]
  rcases htf : data.target with _ | t | ts
  · exact absurd htf ht
  · rw [hjs, hje]
    simp only [runScan_eq_nil_of_lt hlt]
  · rw [hjs, hje]
    simp only [runScan_eq_nil_of_lt hlt]

/-- C10 witness: a concrete request with `jd_start` after `jd_end`
returns the empty event list. -/
theorem C10_empty_window_witness :
    aspect_hits ⟨fun _ => some 0, fun _ _ => (0, 1),
        fun s => if s = "2020-01-05T00:00" then 5 else 0,
        fun _ => (2020, 1, 1, 0)⟩
      ⟨["SUN"], .scalar (.num 0), [0], 1, some "2020-01-05",
        some "2020-01-01", 24, []⟩ = .ok [] :=
  C10_empty_window _ _ "2020-01-05" "2020-01-01" (by decide) (by decide)
    rfl rfl (by decide)

end App
